import Mathlib

/-!
Shallow embedding of the evidence-cache / report-orchestration core of the
DataAnalysis_Langchain repository.

Embedded source functions:
- Phase1/utilities.py : query_database_by_tags, append_articles
- Phase1/db_append.py : store_articles
- Core_Workflow/report_generator.py : collate_article_summaries,
  generate_analysis_report, generate_report_for_query, supplement_data,
  MIN_ARTICLE_THRESHOLD

External collaborators (tag extractor, web fetcher, OpenAI chat call,
PostgreSQL connection) are modeled as parameters of an environment record:
the embedding quantifies over every behaviour they can exhibit at the
boundary the Python code observes (returned values or a raised exception).
Python dicts for articles are modeled as a structure in which a missing
key is represented by the value the code obtains from dict.get: the empty
string for url, summary and query, the empty list for tags, and none for
the retrieval timestamp (which fetched candidates do not carry).
Timestamps are modeled as natural numbers supplied by a monotone clock.
-/

namespace ReportPipeline

/-- Article record: one row of the articles table, or one in-flight article
dictionary. The retrievalTimestamp is none for dictionaries that never
came from the database (the fetched candidates). -/
structure Article where
  url : String
  summary : String
  query : String
  tags : List String
  retrievalTimestamp : Option Nat
deriving DecidableEq, Repr

/-- Boolean model of the Python str.startswith test used by the orchestrator
URL filter: character-list prefix comparison. -/
def pyStartsWith (s p : String) : Bool :=
  p.data.isPrefixOf s.data

/-- Threshold constant MIN_ARTICLE_THRESHOLD from Core_Workflow/report_generator.py. -/
def MIN_ARTICLE_THRESHOLD : Nat := 7

/-- Number of distinct tags of an article that also occur in the query tag
list: the Python expression len(set(article_tags).intersection(query_tags))
in query_database_by_tags. -/
def commonTagCount (articleTags queryTags : List String) : Nat :=
  ((articleTags.dedup).filter (fun t => queryTags.contains t)).length

/-- Coarse overlap test of the storage layer: the PostgreSQL array operator
tags && query_tags, true when some article tag occurs in the query list. -/
def hasTagOverlap (articleTags queryTags : List String) : Bool :=
  articleTags.any (fun t => queryTags.contains t)

/-- Embedding of query_database_by_tags (Phase1/utilities.py): first the
coarse SQL overlap filter, then the in-memory re-check keeping only rows
with at least minMatches distinct common tags. The caller in the
orchestrator passes minMatches = 4 (the Python default). -/
def query_database_by_tags (store : List Article) (queryTags : List String)
    (minMatches : Nat) : List Article :=
  (store.filter (fun r => hasTagOverlap r.tags queryTags)).filter
    (fun r => decide (minMatches ≤ commonTagCount r.tags queryTags))

/-- Single-row step of the INSERT ... ON CONFLICT (url) DO NOTHING statement
of append_articles: a row whose url already exists is skipped, otherwise the
row is inserted with retrieval_timestamp set by the database clock. -/
def insertSkip (now : Nat) (store : List Article) (a : Article) : List Article :=
  if store.any (fun r => r.url = a.url) then store
  else store ++ [{ a with retrievalTimestamp := some now }]

/-- Embedding of append_articles (Phase1/utilities.py): bulk insert with
insert-or-skip conflict policy on url, rows processed in batch order within
one statement, so a later batch row also conflicts with an earlier one. -/
def append_articles (store : List Article) (batch : List Article) (now : Nat) :
    List Article :=
  batch.foldl (insertSkip now) store

/-- Row update performed by the DO UPDATE branch of store_articles: the
incoming summary, query and tags win and retrieval_timestamp is set to
NOW(); the key url is unchanged. -/
def upsertRow (now : Nat) (a : Article) (r : Article) : Article :=
  if r.url = a.url then
    { url := r.url, summary := a.summary, query := a.query, tags := a.tags,
      retrievalTimestamp := some now }
  else r

/-- Single-row step of the INSERT ... ON CONFLICT (url) DO UPDATE statement
of store_articles. -/
def insertUpdate (now : Nat) (store : List Article) (a : Article) : List Article :=
  if store.any (fun r => r.url = a.url) then store.map (upsertRow now a)
  else store ++ [{ a with retrievalTimestamp := some now }]

/-- Embedding of store_articles (Phase1/db_append.py): bulk insert with
insert-or-update conflict policy on url. -/
def store_articles (store : List Article) (batch : List Article) (now : Nat) :
    List Article :=
  batch.foldl (insertUpdate now) store

/-- Lookup of the stored row with a given url (first match). -/
def findByUrl (store : List Article) (u : String) : Option Article :=
  store.find? (fun r => r.url = u)

/-- Environment of one orchestrator invocation: the behaviour of every
external collaborator as observed by generate_report_for_query. tags is the
extract_tags output; store is the database table read by the lookup;
dbReadFails models a psycopg2 exception inside query_database_by_tags,
which that function catches and turns into an empty result; fetched is the
get_data_and_summarize return value and fetchFails a raised exception that
supplement_data catches and turns into an empty list; narration is the
OpenAI chat content, none when the call raises. -/
structure Env where
  tags : List String
  store : List Article
  dbReadFails : Bool
  fetched : List Article
  fetchFails : Bool
  narration : Option String
deriving DecidableEq, Repr

/-- Observable outcome of one orchestrator invocation: the returned report
string, the number of Fetcher and Narrative Generator invocations, the
batches handed to append_articles, and the merged article list handed to
collation. -/
structure RunResult where
  report : String
  fetchCalls : Nat
  narrateCalls : Nat
  appended : List (List Article)
  merged : List Article
deriving DecidableEq, Repr

/-- Embedding of supplement_data (Core_Workflow/report_generator.py): calls
get_data_and_summarize and degrades an exception to the empty list. -/
def supplement_data (env : Env) : List Article :=
  if env.fetchFails then [] else env.fetched

/-- Step 2 of the orchestrator: the store lookup through
query_database_by_tags with the default minMatches = 4; a database failure
is caught inside query_database_by_tags and degrades to zero rows. -/
def dbLookup (env : Env) : List Article :=
  if env.dbReadFails then [] else query_database_by_tags env.store env.tags 4

/-- Context block emitted by collate_article_summaries for one article at
1-based position pos: the f-string Article {i+1} (URL: {url}):\n{summary}\n\n. -/
def articleBlock (pos : Nat) (a : Article) : String :=
  "Article " ++ toString pos ++ " (URL: " ++ a.url ++ "):\n" ++ a.summary ++ "\n\n"

/-- Embedding of collate_article_summaries (Core_Workflow/report_generator.py):
enumerate the articles, and for each one with a non-empty summary append its
block, labeled by the enumeration index plus one, to the accumulator. -/
def collate_article_summaries (articles : List Article) : String :=
  articles.enum.foldl
    (fun collated p =>
      if p.2.summary = "" then collated else collated ++ articleBlock (p.1 + 1) p.2)
    ""

/-- Embedding of generate_analysis_report (Core_Workflow/report_generator.py):
the OpenAI chat call is the external collaborator; on success the content is
stripped and returned, on an exception the fixed sentinel string is returned. -/
def generate_analysis_report (narration : Option String) : String :=
  match narration with
  | some content => content.trim
  | none => "Error generating report."

/-- Terminal steps 4 and 5 of the orchestrator applied to the merged article
list: short-circuit on an empty merged set, otherwise collate and narrate. -/
def finishRun (env : Env) (articles : List Article) (fetchCalls : Nat)
    (appended : List (List Article)) : RunResult :=
  if articles.isEmpty then
    { report := "No relevant articles found to generate a report.",
      fetchCalls := fetchCalls, narrateCalls := 0,
      appended := appended, merged := articles }
  else
    { report := generate_analysis_report env.narration,
      fetchCalls := fetchCalls, narrateCalls := 1,
      appended := appended, merged := articles }

/-- Candidate filter of the supplementing branch: keep an article when its
url starts with http and is not among the urls already read from the
database. -/
def keepCandidate (existingUrls : List String) (a : Article) : Bool :=
  pyStartsWith a.url "http" && !(existingUrls.contains a.url)

/-- Defaulting step of the supplementing branch: a falsy query (missing or
empty) becomes the current query string, a falsy tags value (missing or
empty) becomes the current tag list. -/
def withDefaults (query : String) (tags : List String) (a : Article) : Article :=
  { a with
    query := if a.query = "" then query else a.query,
    tags := if a.tags = [] then tags else a.tags }

/-- Embedding of generate_report_for_query (Core_Workflow/report_generator.py).
Step 1 extracts tags (env.tags), step 2 reads matching rows, step 3
supplements when the row count is below MIN_ARTICLE_THRESHOLD: fetch once,
drop candidates with an invalid url or a url already among the cached rows,
default query and tags, hand the non-empty batch to append_articles, and
merge cached rows before survivors. Steps 4 and 5 collate and narrate. -/
def generate_report_for_query (env : Env) (query : String)
    (extraInstructions : String) : RunResult :=
  let _ := extraInstructions
  let tags := env.tags
  let articles_from_db := dbLookup env
  if articles_from_db.length < MIN_ARTICLE_THRESHOLD then
    let existing_urls := articles_from_db.map (fun a => a.url)
    let supplementary_articles :=
      ((supplement_data env).filter (keepCandidate existing_urls)).map
        (withDefaults query tags)
    let appendedBatches :=
      if supplementary_articles.isEmpty then [] else [supplementary_articles]
    finishRun env (articles_from_db ++ supplementary_articles) 1 appendedBatches
  else
    finishRun env articles_from_db 0 []

/-! Helper lemmas shared by the claim theorems. -/

/-- Projection lemma: finishRun hands the article list through as the merged set. -/
theorem finishRun_merged (env : Env) (articles : List Article) (fc : Nat)
    (ap : List (List Article)) : (finishRun env articles fc ap).merged = articles := by
  unfold finishRun
  split <;> rfl

/-- Projection lemma: finishRun hands the append trace through unchanged. -/
theorem finishRun_appended (env : Env) (articles : List Article) (fc : Nat)
    (ap : List (List Article)) : (finishRun env articles fc ap).appended = ap := by
  unfold finishRun
  split <;> rfl

/-- Projection lemma: finishRun hands the fetch count through unchanged. -/
theorem finishRun_fetchCalls (env : Env) (articles : List Article) (fc : Nat)
    (ap : List (List Article)) : (finishRun env articles fc ap).fetchCalls = fc := by
  unfold finishRun
  split <;> rfl

/-- Every orchestrator run ends in finishRun applied to some merged list,
fetch count and append trace. -/
theorem run_eq_finishRun (env : Env) (q e : String) :
    ∃ l fc ap, generate_report_for_query env q e = finishRun env l fc ap := by
  simp only [generate_report_for_query]
  split
  · exact ⟨_, _, _, rfl⟩
  · exact ⟨_, _, _, rfl⟩

/-- A positive exact common-tag count implies the coarse overlap test passes. -/
theorem common_tag_overlap (ats qts : List String)
    (h : 1 ≤ commonTagCount ats qts) : hasTagOverlap ats qts = true := by
  unfold commonTagCount at h
  obtain ⟨x, hx⟩ := List.exists_mem_of_length_pos h
  obtain ⟨hxd, hxq⟩ := List.mem_filter.mp hx
  unfold hasTagOverlap
  rw [List.any_eq_true]
  exact ⟨x, List.mem_dedup.mp hxd, hxq⟩

/-- Updating a row by upsertRow never changes its url. -/
theorem upsertRow_url (now : Nat) (a r : Article) :
    (upsertRow now a r).url = r.url := by
  unfold upsertRow
  split <;> rfl

/-- Folding string append from an arbitrary initial accumulator factors the
accumulator out in front. -/
theorem foldl_append_init (l : List String) (s : String) :
    l.foldl (fun r t => r ++ t) s = s ++ l.foldl (fun r t => r ++ t) "" := by
  induction l generalizing s with
  | nil => simp
  | cons x xs ih =>
    simp only [List.foldl]
    rw [ih (s ++ x), ih ("" ++ x)]
    simp [String.append_assoc]

/-- Cons equation for String.join. -/
theorem string_join_cons (s : String) (l : List String) :
    String.join (s :: l) = s ++ String.join l := by
  simp only [String.join, List.foldl]
  rw [foldl_append_init l ("" ++ s), foldl_append_init l ""]
  simp [String.append_assoc]

/-- Generalized collation equation: folding the collation step over an
enumeration starting at any index, from any accumulator, appends exactly the
blocks of the non-empty-summary entries, each labeled by its enumeration
index plus one. -/
theorem collate_enumFrom (articles : List Article) (n : Nat) (acc : String) :
    (List.enumFrom n articles).foldl
      (fun collated p =>
        if p.2.summary = "" then collated else collated ++ articleBlock (p.1 + 1) p.2)
      acc =
    acc ++ String.join
      (((List.enumFrom n articles).filter (fun p => !(p.2.summary == ""))).map
        (fun p => articleBlock (p.1 + 1) p.2)) := by
  induction articles generalizing n acc with
  | nil => simp [List.enumFrom, String.join]
  | cons a as ih =>
    simp only [List.enumFrom, List.foldl, List.filter]
    by_cases h : a.summary = ""
    · simp only [h, if_pos rfl]
      rw [ih]
      have hb : (a.summary == "") = true := by simp [h]
      simp [hb]
    · have hb : (a.summary == "") = false := by simp [h]
      simp only [h, if_neg h, hb, Bool.not_false, List.map]
      rw [ih, string_join_cons]
      simp [String.append_assoc]

section ClaimTheorems

/-- Inputs used by concrete witnesses and counterexamples. -/
def rowC2 : Article :=
  { url := "https://example.com/c2", summary := "s", query := "q0",
    tags := ["economy"], retrievalTimestamp := some 0 }

def rowC2w : Article :=
  { url := "https://example.com/c2w", summary := "s", query := "q0",
    tags := ["tariff", "trade"], retrievalTimestamp := some 0 }

/-- C5: appending the same Article twice through the insert-or-skip path of
append_articles is idempotent: after the first append the url is present, so
the second batch write leaves the whole table, the row included, unchanged. -/
theorem c5_append_insert_or_skip_idempotent (store : List Article) (a : Article)
    (t1 t2 : Nat) :
    append_articles (append_articles store [a] t1) [a] t2 =
      append_articles store [a] t1 := by
  unfold append_articles
  simp only [List.foldl]
  unfold insertSkip
  by_cases h : store.any (fun r => r.url = a.url)
  · simp [h]
  · simp [h, List.any_append]

/-- C7: collation emits, for each article of the merged list in order, a block
labeled by its 1-based position and url followed by its summary; articles
with an empty summary are filtered out only after the enumeration assigned
positions, so a skipped article still consumes its ordinal slot and visible
numbering can have gaps. -/
theorem c7_collation_numbering (articles : List Article) :
    collate_article_summaries articles =
      String.join
        ((articles.enum.filter (fun p => !(p.2.summary == ""))).map
          (fun p => articleBlock (p.1 + 1) p.2)) := by
  unfold collate_article_summaries
  have h := collate_enumFrom articles 0 ""
  simpa [List.enum] using h

/-- C2 counterexample: with minMatches = 0 the claim fails: a stored row with
no tag in common with the query trivially has at least 0 common tags, yet the
coarse overlap phase drops it, so it is not returned: a false negative. -/
theorem c2_zero_threshold_counterexample :
    rowC2 ∈ [rowC2] ∧ 0 ≤ commonTagCount rowC2.tags ["tariff"] ∧
      rowC2 ∉ query_database_by_tags [rowC2] ["tariff"] 0 := by
  decide

/-- C2 (amended to minMatches at least 1, the only regime the two-phase
filter is exact in; every call site passes the default 4): a row is returned
by query_database_by_tags exactly when it is in the store and shares at
least minMatches distinct tags with the query tag list: no false positives
and no false negatives. -/
theorem c2_query_by_tags_exact (store : List Article) (queryTags : List String)
    (minMatches : Nat) (hm : 1 ≤ minMatches) (r : Article) :
    r ∈ query_database_by_tags store queryTags minMatches ↔
      r ∈ store ∧ minMatches ≤ commonTagCount r.tags queryTags := by
  unfold query_database_by_tags
  simp only [List.mem_filter, decide_eq_true_eq]
  constructor
  · rintro ⟨⟨hs, _⟩, hc⟩
    exact ⟨hs, hc⟩
  · rintro ⟨hs, hc⟩
    exact ⟨⟨hs, common_tag_overlap _ _ (le_trans hm hc)⟩, hc⟩

/-- Witness for C2 at a concrete store, tag list and threshold 1. -/
theorem c2_query_by_tags_exact_witness :
    1 ≤ 1 ∧
      (rowC2w ∈ query_database_by_tags [rowC2w] ["tariff"] 1 ↔
        rowC2w ∈ [rowC2w] ∧ 1 ≤ commonTagCount rowC2w.tags ["tariff"]) :=
  ⟨by decide, c2_query_by_tags_exact [rowC2w] ["tariff"] 1 (by decide) rowC2w⟩

/-- C1: per query, when the store lookup already yields at least
MIN_ARTICLE_THRESHOLD rows the Fetcher is never invoked and the merged set
is the cached list verbatim; when it yields fewer, the Fetcher is invoked
exactly once. -/
theorem c1_supplementation_gate (env : Env) (q e : String) :
    (MIN_ARTICLE_THRESHOLD ≤ (dbLookup env).length →
      (generate_report_for_query env q e).fetchCalls = 0 ∧
      (generate_report_for_query env q e).merged = dbLookup env) ∧
    ((dbLookup env).length < MIN_ARTICLE_THRESHOLD →
      (generate_report_for_query env q e).fetchCalls = 1) := by
  constructor
  · intro h
    have hc : ¬ (dbLookup env).length < MIN_ARTICLE_THRESHOLD := by omega
    simp only [generate_report_for_query, if_neg hc]
    exact ⟨finishRun_fetchCalls env (dbLookup env) 0 [],
      finishRun_merged env (dbLookup env) 0 []⟩
  · intro h
    simp only [generate_report_for_query, if_pos h]
    exact finishRun_fetchCalls env _ 1 _

def rowC1 : Article :=
  { url := "https://example.com/c1", summary := "s", query := "q0",
    tags := ["a", "b", "c", "d"], retrievalTimestamp := some 0 }

def envC1 : Env :=
  { tags := ["a", "b", "c", "d"], store := List.replicate 7 rowC1,
    dbReadFails := false, fetched := [], fetchFails := false,
    narration := some "r" }

def envC1b : Env :=
  { tags := ["a", "b", "c", "d"], store := [], dbReadFails := false,
    fetched := [], fetchFails := false, narration := some "r" }

/-- Witness for C1: a seven-row lookup takes the sufficient branch with zero
fetches and an unchanged merged set; an empty lookup takes the supplementing
branch with exactly one fetch. -/
theorem c1_supplementation_gate_witness :
    ((generate_report_for_query envC1 "q" "").fetchCalls = 0 ∧
      (generate_report_for_query envC1 "q" "").merged = dbLookup envC1) ∧
    (generate_report_for_query envC1b "q" "").fetchCalls = 1 :=
  ⟨(c1_supplementation_gate envC1 "q" "").1 (by decide),
    (c1_supplementation_gate envC1b "q" "").2 (by decide)⟩

/-- C3: in the supplementing branch the merged set is the cached rows
followed by exactly those fetched candidates whose url starts with http and
is not a cached url, each with a falsy query defaulted to the current query
string and a falsy tags value defaulted to the current tag list; cached rows
come strictly first and no further deduplication or reordering happens. -/
theorem c3_supplement_merge_shape (env : Env) (q e : String)
    (h : (dbLookup env).length < MIN_ARTICLE_THRESHOLD) :
    (generate_report_for_query env q e).merged =
      dbLookup env ++
        ((supplement_data env).filter (fun a =>
            pyStartsWith a.url "http" &&
              !(((dbLookup env).map (fun c => c.url)).contains a.url))).map
          (fun a =>
            { a with query := if a.query = "" then q else a.query,
                     tags := if a.tags = [] then env.tags else a.tags }) := by
  simp only [generate_report_for_query, if_pos h]
  rw [finishRun_merged]
  rfl

def envC3 : Env :=
  { tags := ["t"],
    store := [],
    dbReadFails := false,
    fetched :=
      [{ url := "http://a", summary := "s1", query := "", tags := [],
         retrievalTimestamp := none },
       { url := "ftp://b", summary := "s2", query := "", tags := [],
         retrievalTimestamp := none }],
    fetchFails := false, narration := some "r" }

/-- Witness for C3 at a concrete environment whose lookup is below the
threshold. -/
theorem c3_supplement_merge_shape_witness :
    (generate_report_for_query envC3 "q" "").merged =
      dbLookup envC3 ++
        ((supplement_data envC3).filter (fun a =>
            pyStartsWith a.url "http" &&
              !(((dbLookup envC3).map (fun c => c.url)).contains a.url))).map
          (fun a =>
            { a with query := if a.query = "" then "q" else a.query,
                     tags := if a.tags = [] then envC3.tags else a.tags }) :=
  c3_supplement_merge_shape envC3 "q" "" (by decide)

/-- C4: for every collaborator behaviour the orchestrator returns a string:
the no-relevant-articles sentinel, the fixed narration-failure sentinel, or
the stripped narration content; and whenever the Narrative Generator was
invoked and failed, the result is the literal fixed error sentinel, never a
raised fault. -/
theorem c4_orchestrator_total_string (env : Env) (q e : String) :
    ((generate_report_for_query env q e).report =
        "No relevant articles found to generate a report." ∨
      (generate_report_for_query env q e).report = "Error generating report." ∨
      ∃ s, env.narration = some s ∧
        (generate_report_for_query env q e).report = s.trim) ∧
    (env.narration = none →
      (generate_report_for_query env q e).narrateCalls = 1 →
      (generate_report_for_query env q e).report = "Error generating report.") := by
  obtain ⟨l, fc, ap, heq⟩ := run_eq_finishRun env q e
  rw [heq]
  by_cases hl : l.isEmpty
  · simp [finishRun, hl]
  · cases hn : env.narration with
    | none => simp [finishRun, hl, generate_analysis_report, hn]
    | some s =>
        constructor
        · right; right
          exact ⟨s, rfl, by simp [finishRun, hl, generate_analysis_report, hn]⟩
        · intro hnone hcalls
          simp at hnone

def envC4 : Env :=
  { tags := ["t"], store := [], dbReadFails := false,
    fetched := [{ url := "http://a", summary := "s", query := "", tags := [],
                  retrievalTimestamp := none }],
    fetchFails := false, narration := none }

/-- Witness for C4: with a failing Narrative Generator and a non-empty
merged set the run returns the fixed error sentinel. -/
theorem c4_orchestrator_total_string_witness :
    (generate_report_for_query envC4 "q" "").report = "Error generating report." :=
  (c4_orchestrator_total_string envC4 "q" "").2 rfl (by decide)

/-- C6: re-storing an article whose url is already present through the
insert-or-update path replaces summary, query and tags with the incoming
values and stamps the row with the later write time; under a monotone clock
(the stored stamp t1 predates the second write time t2) the refreshed stamp
is strictly later than the original. -/
theorem c6_store_upsert_refresh (store : List Article) (a r : Article)
    (u : String) (t1 t2 : Nat) (hfind : findByUrl store u = some r)
    (hurl : a.url = u) (hts : r.retrievalTimestamp = some t1)
    (hclock : t1 < t2) :
    findByUrl (store_articles store [a] t2) u =
      some { url := u, summary := a.summary, query := a.query, tags := a.tags,
             retrievalTimestamp := some t2 } ∧
      t1 < t2 := by
  refine ⟨?_, hclock⟩
  unfold findByUrl at hfind
  have hrmem : r ∈ store := List.mem_of_find?_eq_some hfind
  have hrurl : r.url = u := by
    have hp := List.find?_some hfind
    simpa using hp
  have hany : (store.any fun x => decide (x.url = a.url)) = true := by
    rw [List.any_eq_true]
    exact ⟨r, hrmem, by simp [hrurl, hurl]⟩
  unfold store_articles
  simp only [List.foldl]
  unfold insertUpdate
  rw [if_pos hany]
  unfold findByUrl
  rw [List.find?_map]
  have hpred : ((fun x => decide (x.url = u)) ∘ upsertRow t2 a) =
      (fun x => decide (x.url = u)) := by
    funext x
    simp [Function.comp, upsertRow_url]
  rw [hpred, hfind]
  simp only [Option.map_some']
  unfold upsertRow
  rw [if_pos (hrurl.trans hurl.symm)]
  simp [hrurl]

def rowC6 : Article :=
  { url := "https://example.com/c6", summary := "old summary",
    query := "old query", tags := ["old"], retrievalTimestamp := some 5 }

def newC6 : Article :=
  { url := "https://example.com/c6", summary := "new summary",
    query := "new query", tags := ["new", "tags"], retrievalTimestamp := none }

/-- Witness for C6 at a concrete one-row store, an incoming article with
changed fields, and write times 5 and 9. -/
theorem c6_store_upsert_refresh_witness :
    findByUrl (store_articles [rowC6] [newC6] 9) "https://example.com/c6" =
      some { url := "https://example.com/c6", summary := "new summary",
             query := "new query", tags := ["new", "tags"],
             retrievalTimestamp := some 9 } ∧
      5 < 9 :=
  c6_store_upsert_refresh [rowC6] newC6 rowC6 "https://example.com/c6" 5 9
    (by decide) rfl rfl (by decide)

/-- C8: whenever the merged set of a run is empty, the run returns the fixed
no-relevant-articles result and the Narrative Generator is never invoked. -/
theorem c8_empty_merge_short_circuit (env : Env) (q e : String)
    (h : (generate_report_for_query env q e).merged = []) :
    (generate_report_for_query env q e).report =
      "No relevant articles found to generate a report." ∧
    (generate_report_for_query env q e).narrateCalls = 0 := by
  obtain ⟨l, fc, ap, heq⟩ := run_eq_finishRun env q e
  rw [heq] at h ⊢
  rw [finishRun_merged] at h
  subst h
  simp [finishRun]

def envC8 : Env :=
  { tags := [], store := [], dbReadFails := false, fetched := [],
    fetchFails := false, narration := some "r" }

/-- Witness for C8: empty tag set and empty store give an empty merged set,
the sentinel result, and zero narration calls. -/
theorem c8_empty_merge_short_circuit_witness :
    (generate_report_for_query envC8 "q" "").report =
      "No relevant articles found to generate a report." ∧
    (generate_report_for_query envC8 "q" "").narrateCalls = 0 :=
  c8_empty_merge_short_circuit envC8 "q" "" (by decide)

def candC9 : Article :=
  { url := "http://c9", summary := "s", query := "", tags := [],
    retrievalTimestamp := none }

def envC9 : Env :=
  { tags := [], store := [], dbReadFails := false, fetched := [candC9],
    fetchFails := false, narration := some "r" }

/-- C9 counterexample: with an empty extracted tag set (legal per the spec)
and a fetched candidate carrying no tags, the defaulting step assigns the
empty tag list, and the candidate is persisted with empty tags. -/
theorem c9_empty_tagset_counterexample :
    ∃ batch ∈ (generate_report_for_query envC9 "q" "").appended,
      ∃ a ∈ batch, a.tags = [] := by
  decide

/-- C9 (amended with the proviso that the triggering query has a non-empty
tag set): every article handed to append_articles by the supplementing
branch has non-empty tags, the fetched value when it was truthy and the
query tag set otherwise. -/
theorem c9_supplement_tags_nonempty (env : Env) (q e : String)
    (htags : env.tags ≠ []) (batch : List Article) (a : Article)
    (hb : batch ∈ (generate_report_for_query env q e).appended)
    (ha : a ∈ batch) : a.tags ≠ [] := by
  simp only [generate_report_for_query] at hb
  split at hb
  · rw [finishRun_appended] at hb
    split at hb
    · simp at hb
    · simp only [List.mem_singleton] at hb
      subst hb
      obtain ⟨c, hc, rfl⟩ := List.mem_map.mp ha
      show (if c.tags = [] then env.tags else c.tags) ≠ []
      split
      · exact htags
      · assumption
  · rw [finishRun_appended] at hb
    simp at hb

def candC9w : Article :=
  { url := "http://c9w", summary := "s", query := "", tags := [],
    retrievalTimestamp := none }

def envC9w : Env :=
  { tags := ["t"], store := [], dbReadFails := false, fetched := [candC9w],
    fetchFails := false, narration := some "r" }

/-- Witness for C9 at a concrete run with a non-empty query tag set. -/
theorem c9_supplement_tags_nonempty_witness :
    ({ url := "http://c9w", summary := "s", query := "q", tags := ["t"],
       retrievalTimestamp := none } : Article).tags ≠ [] :=
  c9_supplement_tags_nonempty envC9w "q" "" (by decide)
    [{ url := "http://c9w", summary := "s", query := "q", tags := ["t"],
       retrievalTimestamp := none }]
    { url := "http://c9w", summary := "s", query := "q", tags := ["t"],
      retrievalTimestamp := none }
    (by decide) (by decide)

def fDup1 : Article :=
  { url := "http://dup", summary := "s1", query := "", tags := [],
    retrievalTimestamp := none }

def fDup2 : Article :=
  { url := "http://dup", summary := "s2", query := "", tags := [],
    retrievalTimestamp := none }

def envC10 : Env :=
  { tags := ["t"], store := [], dbReadFails := false,
    fetched := [fDup1, fDup2], fetchFails := false, narration := some "r" }

def pDup1 : Article :=
  { url := "http://dup", summary := "s1", query := "q", tags := ["t"],
    retrievalTimestamp := none }

def pDup2 : Article :=
  { url := "http://dup", summary := "s2", query := "q", tags := ["t"],
    retrievalTimestamp := none }

/-- C10: deduplication is only performed against the cached rows, never
inside the fetched batch: two fetched entries sharing one valid url absent
from the cache both survive the filter, both are handed to append_articles
in one batch, and both appear in the merged set. -/
theorem c10_intra_batch_duplicates_survive :
    fDup1.url = fDup2.url ∧
    pyStartsWith fDup1.url "http" = true ∧
    ((dbLookup envC10).map (fun a => a.url)).contains fDup1.url = false ∧
    (generate_report_for_query envC10 "q" "").appended = [[pDup1, pDup2]] ∧
    (generate_report_for_query envC10 "q" "").merged = [pDup1, pDup2] := by
  decide

end ClaimTheorems

end ReportPipeline
